import Mathlib

/-!
Shallow embedding of the navigation completion barrier of `nav.go`
(package chromedp): the event barrier (`expectEvent`), the frame-scoped
lifecycle predicate (`expectLifecycleEvent` / `expectLifecycleLoaded`),
the frame-identity read (`navigatedFrameID`) and the navigation
orchestrator actions (`Navigate`, `NavigationEntries`,
`NavigateToHistoryEntry`, `NavigateBack`, `NavigateForward`, `Reload`).

Go machine integers (`int64`) are modelled as `Int`; Go strings as
`String`; `interface{}` event payloads as the inductive `Event`;
fallible calls return `Option Err` (acknowledgment error) or
`Except Err`; a Go `panic` is a dedicated constructor of `GoResult`.
-/

namespace Chromedp

/-- Errors surfaced by the modelled code: context termination errors,
transport/protocol acknowledgment errors (tagged by an opaque code), and
the literal `errors.New "invalid navigation entry"` value of `nav.go`. -/
inductive Err
  | ctxCanceled
  | ctxDeadlineExceeded
  | protocol (code : Nat)
  | invalidEntry
  deriving DecidableEq, Repr

/-- A `cdp.FrameID` is a string-typed opaque frame identifier. -/
abbrev FrameID := String

/-- The fragment of `cdp.Frame` that `navigatedFrameID` reads: only the
`ID` field is used. -/
structure Frame where
  ID : FrameID
  deriving DecidableEq, Repr

/-- The fragment of the `Target` session object that `navigatedFrameID`
touches: the current frame pointer `cur` (nil modelled as `none`) and the
reader count of the `curMu` read/write lock (`RLock` increments it,
`RUnlock` decrements it; a balanced call leaves it unchanged). -/
structure Target where
  cur : Option Frame
  curMuReaders : Nat
  deriving DecidableEq, Repr

/-- The executor stored in the context: either a `*Target` (the type
assertion in `navigatedFrameID` succeeds) or some other executor (the
assertion fails). -/
inductive Executor
  | target (t : Target)
  | other
  deriving DecidableEq, Repr

/-- Model of `navigatedFrameID` (nav.go lines 191-203), faithful to the
source line by line: a failed type assertion returns `""`; otherwise
`curMu.RLock()` is taken (reader count incremented), and on the
`target.cur == nil` path `""` is returned WITHOUT the matching
`RUnlock()` (the decrement is skipped, exactly as in the source); on the
non-nil path the frame's `ID` is returned after `RUnlock()`. The result
pairs the returned frame identifier with the post-call executor state so
that the lock balance is observable. -/
def navigatedFrameID : Executor → FrameID × Executor
  | Executor.other => ("", Executor.other)
  | Executor.target t =>
    let locked : Target := { t with curMuReaders := t.curMuReaders + 1 }
    match locked.cur with
    | none => ("", Executor.target locked)
    | some f =>
      (f.ID, Executor.target { locked with curMuReaders := locked.curMuReaders - 1 })

/-- Event payloads delivered by the event bus: a
`*page.EventLifecycleEvent` carrying a name and a frame identifier (the
two fields the predicate reads), or any other payload (for which the
type assertion `i.(*page.EventLifecycleEvent)` fails). -/
inductive Event
  | lifecycle (name : String) (frameID : FrameID)
  | other (tag : Nat)
  deriving DecidableEq, Repr

/-- Model of the predicate built by `expectLifecycleEvent` (nav.go lines
175-185). The Go closure captures the context `r` and calls
`navigatedFrameID(r)` INSIDE the predicate body, so the frame identity
is re-read from the target's mutable state at every evaluation; `exec`
is therefore the executor state current at the moment the predicate is
evaluated, not at arm time. -/
def lifecycleIs (name : String) (exec : Executor) (e : Event) : Bool :=
  match e with
  | Event.lifecycle n fid => n == name && fid == (navigatedFrameID exec).1
  | Event.other _ => false

/-- Modelled from the spec: the frame-scoped lifecycle predicate as the
spec describes it in section 4.2 — the frame identity is "captured at
arm time" and every evaluation compares against that fixed value `fid`.
This definition follows the spec's words (not the source) and exists
only to be compared against `lifecycleIs`, the predicate the source
actually builds. -/
def lifecycleIsFixed (name : String) (fid : FrameID) (e : Event) : Bool :=
  match e with
  | Event.lifecycle n f => n == name && f == fid
  | Event.other _ => false

/-- State of one barrier instance created by `expectEvent` (nav.go lines
154-173): whether the completion channel `ok` has been closed, whether
the listener scope has been cancelled (`release` called, by the listener
itself or by the caller), how many times `close(ok)` has executed, and
whether a forbidden double close occurred (`close` of an already-closed
Go channel panics). -/
structure BarrierState where
  okClosed : Bool
  released : Bool
  closeCount : Nat
  panicked : Bool
  deriving DecidableEq, Repr

/-- The barrier state right after `expectEvent` returns: channel open,
listener registered and not yet cancelled, no close performed. -/
def armed : BarrierState :=
  { okClosed := false, released := false, closeCount := 0, panicked := false }

/-- Operations the environment can perform on an armed barrier: the
event bus delivers an event to the listener, or `release` (the returned
`context.CancelFunc`) is invoked. -/
inductive BOp
  | deliver (e : Event)
  | release
  deriving DecidableEq, Repr

/-- Modelled from the spec: one step of the barrier's interaction with
the event-subscription facility (`ListenTarget`, which is not part of
the shown source). Per the spec, event delivery to a listener stops once
its scope is cancelled, so a delivery to a released barrier is a no-op;
otherwise the listener body of `expectEvent` runs: if the predicate
matches, `close(ok)` executes (a second close of an already-closed
channel would panic) and `release()` is invoked. `release` itself only
cancels the listener scope. -/
def barrierStep (is : Event → Bool) (s : BarrierState) : BOp → BarrierState
  | BOp.deliver e =>
    if s.released then s
    else if is e then
      { okClosed := true
        released := true
        closeCount := s.closeCount + 1
        panicked := s.panicked || s.okClosed }
    else s
  | BOp.release => { s with released := true }

/-- Run a barrier from the armed state through a sequence of
deliveries and release calls. -/
def runBarrier (is : Event → Bool) (ops : List BOp) : BarrierState :=
  ops.foldl (barrierStep is) armed

/-- Model of the `select` in `expect` (nav.go lines 164-171): given
whether the completion channel is closed and whether the governing
context is done, the call either blocks (`none`: neither channel is
ready) or returns one result (`some none` is a nil error, `some (some
e)` is the error `e`). When both channels are ready Go's `select` picks
one pseudo-randomly; the scheduler's choice is the oracle `pickOk`. -/
def expectResult (okClosed ctxDone : Bool) (ctxErr : Err) (pickOk : Bool) :
    Option (Option Err) :=
  match okClosed, ctxDone with
  | true, true => some (if pickOk then none else some ctxErr)
  | true, false => some none
  | false, true => some (some ctxErr)
  | false, false => none

/-- Protocol commands issued by the navigation actions of `nav.go`. -/
inductive Cmd
  | navigate (url : String)
  | getNavigationHistory
  | navigateToHistoryEntry (id : Int)
  | reload
  deriving DecidableEq, Repr

/-- Observable steps of one navigation action run, in program order:
registering the barrier's listener (the `ListenTarget` call inside
`expectEvent`), issuing a protocol command, blocking on the barrier's
`expect`, and invoking `release`. -/
inductive Step
  | registerListener
  | command (c : Cmd)
  | waitOnBarrier
  | release
  deriving DecidableEq, Repr

/-- The fragment of `page.NavigationEntry` used by `nav.go`: only the
`ID` field is read. -/
structure NavEntry where
  ID : Int
  deriving DecidableEq, Repr

/-- Environment oracle for one action run: the acknowledgment outcome of
each protocol command (`none` is a successful acknowledgment), the state
of the two channels `expect` selects over, the governing context's
termination error, and the scheduler's choice when both channels are
ready. -/
structure World where
  navigateAck : Option Err
  historyAck : Except Err (Int × List NavEntry)
  entryAck : Option Err
  reloadAck : Option Err
  okClosed : Bool
  ctxDone : Bool
  ctxErr : Err
  pickOk : Bool
  deriving Repr

/-- Trace of the arm call alone: `expectEvent` performs its
`ListenTarget` registration synchronously before returning, so a run of
`arm` by itself contributes exactly this one step. -/
def armTrace : List Step := [Step.registerListener]

/-- Outcome of `expect` in world `w`. -/
def waitIn (w : World) : Option (Option Err) :=
  expectResult w.okClosed w.ctxDone w.ctxErr w.pickOk

/-- Model of the `Navigate` action body (nav.go lines 15-25): arm the
barrier (deferred `release`), issue `page.Navigate`, return its error on
failed acknowledgment, otherwise return `expect()`. The first component
is `none` when the run blocks forever inside `expect` (the deferred
`release` has not run yet on that branch); otherwise it is `some` of the
returned error value. The second component is the step trace. -/
def NavigateRun (urlstr : String) (w : World) : Option (Option Err) × List Step :=
  match w.navigateAck with
  | some e =>
    (some (some e), armTrace ++ [Step.command (Cmd.navigate urlstr), Step.release])
  | none =>
    match waitIn w with
    | none =>
      (none, armTrace ++ [Step.command (Cmd.navigate urlstr), Step.waitOnBarrier])
    | some r =>
      (some r,
        armTrace ++ [Step.command (Cmd.navigate urlstr), Step.waitOnBarrier, Step.release])

/-- Model of the `NavigateToHistoryEntry` action body (nav.go lines
43-52): same shape as `Navigate` with the
`page.NavigateToHistoryEntry(entryID)` command. -/
def NavigateToHistoryEntryRun (entryID : Int) (w : World) :
    Option (Option Err) × List Step :=
  match w.entryAck with
  | some e =>
    (some (some e),
      armTrace ++ [Step.command (Cmd.navigateToHistoryEntry entryID), Step.release])
  | none =>
    match waitIn w with
    | none =>
      (none,
        armTrace ++ [Step.command (Cmd.navigateToHistoryEntry entryID), Step.waitOnBarrier])
    | some r =>
      (some r,
        armTrace ++
          [Step.command (Cmd.navigateToHistoryEntry entryID), Step.waitOnBarrier,
            Step.release])

/-- Model of the `Reload` action body (nav.go lines 99-108). -/
def ReloadRun (w : World) : Option (Option Err) × List Step :=
  match w.reloadAck with
  | some e => (some (some e), armTrace ++ [Step.command Cmd.reload, Step.release])
  | none =>
    match waitIn w with
    | none => (none, armTrace ++ [Step.command Cmd.reload, Step.waitOnBarrier])
    | some r =>
      (some r, armTrace ++ [Step.command Cmd.reload, Step.waitOnBarrier, Step.release])

/-- Model of the `NavigateBack` action body (nav.go lines 56-74): fetch
the navigation history; on acknowledgment error return it; reject with
`invalid navigation entry` when `cur <= 0 || cur > int64(len(entries)-1)`
BEFORE arming the barrier or issuing any further command; otherwise arm,
issue `page.NavigateToHistoryEntry(entries[cur-1].ID)` and wait. -/
def NavigateBackRun (w : World) : Option (Option Err) × List Step :=
  match w.historyAck with
  | Except.error e => (some (some e), [Step.command Cmd.getNavigationHistory])
  | Except.ok (cur, entries) =>
    if cur ≤ 0 ∨ cur > (entries.length : Int) - 1 then
      (some (some Err.invalidEntry), [Step.command Cmd.getNavigationHistory])
    else
      let entryID := (entries.getD (cur - 1).toNat ⟨0⟩).ID
      match w.entryAck with
      | some e =>
        (some (some e),
          Step.command Cmd.getNavigationHistory ::
            armTrace ++ [Step.command (Cmd.navigateToHistoryEntry entryID), Step.release])
      | none =>
        match waitIn w with
        | none =>
          (none,
            Step.command Cmd.getNavigationHistory ::
              armTrace ++
                [Step.command (Cmd.navigateToHistoryEntry entryID), Step.waitOnBarrier])
        | some r =>
          (some r,
            Step.command Cmd.getNavigationHistory ::
              armTrace ++
                [Step.command (Cmd.navigateToHistoryEntry entryID), Step.waitOnBarrier,
                  Step.release])

/-- Model of the `NavigateForward` action body (nav.go lines 78-96):
like `NavigateBack` with the guard
`cur < 0 || cur >= int64(len(entries)-1)` and target entry
`entries[cur+1].ID`. -/
def NavigateForwardRun (w : World) : Option (Option Err) × List Step :=
  match w.historyAck with
  | Except.error e => (some (some e), [Step.command Cmd.getNavigationHistory])
  | Except.ok (cur, entries) =>
    if cur < 0 ∨ cur ≥ (entries.length : Int) - 1 then
      (some (some Err.invalidEntry), [Step.command Cmd.getNavigationHistory])
    else
      let entryID := (entries.getD (cur + 1).toNat ⟨0⟩).ID
      match w.entryAck with
      | some e =>
        (some (some e),
          Step.command Cmd.getNavigationHistory ::
            armTrace ++ [Step.command (Cmd.navigateToHistoryEntry entryID), Step.release])
      | none =>
        match waitIn w with
        | none =>
          (none,
            Step.command Cmd.getNavigationHistory ::
              armTrace ++
                [Step.command (Cmd.navigateToHistoryEntry entryID), Step.waitOnBarrier])
        | some r =>
          (some r,
            Step.command Cmd.getNavigationHistory ::
              armTrace ++
                [Step.command (Cmd.navigateToHistoryEntry entryID), Step.waitOnBarrier,
                  Step.release])

/-- Outcome of a Go computation that may panic. -/
inductive GoResult (α : Type)
  | ok (a : α)
  | panicked (msg : String)
  deriving DecidableEq, Repr

/-- Model of `NavigationEntries` (nav.go lines 29-39): the output
pointers are `Option`s (`none` is a nil pointer); a nil pointer panics
at construction time, before any protocol call. Otherwise the action
runs `page.GetNavigationHistory` and multi-assigns its three results:
on success the fetched index and entry list are written through the two
pointers and a nil error is returned; on failure the zero values are
written and the error is returned. The result carries the final values
of the two output locations and the returned error. -/
def NavigationEntriesModel (currentIndex : Option Int) (entries : Option (List NavEntry))
    (historyAck : Except Err (Int × List NavEntry)) :
    GoResult ((Int × List NavEntry) × Option Err) :=
  match currentIndex, entries with
  | none, _ => GoResult.panicked "currentIndex and entries cannot be nil"
  | _, none => GoResult.panicked "currentIndex and entries cannot be nil"
  | some _, some _ =>
    match historyAck with
    | Except.ok (i, es) => GoResult.ok ((i, es), none)
    | Except.error e => GoResult.ok ((0, []), some e)

/-- Whether a step issues one of the barrier-triggering navigation
commands (`page.Navigate`, `page.NavigateToHistoryEntry`,
`page.Reload`); the history fetch is not a trigger. -/
def isTrigger : Step → Bool
  | Step.command (Cmd.navigate _) => true
  | Step.command (Cmd.navigateToHistoryEntry _) => true
  | Step.command Cmd.reload => true
  | _ => false

/-- Whether a step is the listener registration. -/
def isReg : Step → Bool
  | Step.registerListener => true
  | _ => false

/-- Scan a trace checking that every barrier-triggering command is
preceded by a listener registration; `seen` records whether a
registration has occurred so far. -/
def regBeforeTrigger (seen : Bool) : List Step → Bool
  | [] => true
  | s :: rest =>
    if isTrigger s then seen && regBeforeTrigger seen rest
    else regBeforeTrigger (seen || isReg s) rest

/-- Invariant of the barrier state machine: the close count tracks the
completion flag, no double close has happened, and a closed barrier has
been released. -/
def barrierInv (s : BarrierState) : Prop :=
  s.closeCount = (if s.okClosed then 1 else 0) ∧ s.panicked = false ∧
    (s.okClosed = true → s.released = true)

theorem barrierStep_inv (is : Event → Bool) (s : BarrierState) (op : BOp)
    (h : barrierInv s) : barrierInv (barrierStep is s op) := by
  obtain ⟨h1, h2, h3⟩ := h
  cases op with
  | release => exact ⟨h1, h2, fun _ => rfl⟩
  | deliver e =>
    cases hr : s.released with
    | true => simpa [barrierStep, hr] using ⟨h1, h2, h3⟩
    | false =>
      cases hi : is e with
      | false => simpa [barrierStep, hr, hi] using ⟨h1, h2, h3⟩
      | true =>
        have hok : s.okClosed = false := by
          cases hok : s.okClosed with
          | false => rfl
          | true => rw [h3 hok] at hr; exact absurd hr (by simp)
        simp [barrierStep, hr, hi, barrierInv, hok, h1, h2]

theorem foldl_barrierStep_inv (is : Event → Bool) (ops : List BOp) (s : BarrierState)
    (h : barrierInv s) : barrierInv (ops.foldl (barrierStep is) s) := by
  induction ops generalizing s with
  | nil => exact h
  | cons op rest ih => exact ih _ (barrierStep_inv is s op h)

theorem runBarrier_inv (is : Event → Bool) (ops : List BOp) :
    barrierInv (runBarrier is ops) :=
  foldl_barrierStep_inv is ops armed ⟨rfl, rfl, fun h => by exact absurd h (by simp [armed])⟩

theorem foldl_okClosed_of (is : Event → Bool) (ops : List BOp) (s : BarrierState)
    (h : (ops.foldl (barrierStep is) s).okClosed = true) :
    s.okClosed = true ∨ ∃ e, BOp.deliver e ∈ ops ∧ is e = true := by
  induction ops generalizing s with
  | nil => exact Or.inl h
  | cons op rest ih =>
    rcases ih (barrierStep is s op) h with hs | ⟨e, he, hise⟩
    · cases op with
      | release => exact Or.inl (by simpa [barrierStep] using hs)
      | deliver e =>
        cases hr : s.released with
        | true => exact Or.inl (by simpa [barrierStep, hr] using hs)
        | false =>
          cases hi : is e with
          | false => exact Or.inl (by simpa [barrierStep, hr, hi] using hs)
          | true => exact Or.inr ⟨e, List.mem_cons_self _ _, hi⟩
    · exact Or.inr ⟨e, List.mem_cons_of_mem _ he, hise⟩

theorem expectResult_success_okClosed (okClosed ctxDone : Bool) (ctxErr : Err)
    (pickOk : Bool) (h : expectResult okClosed ctxDone ctxErr pickOk = some none) :
    okClosed = true := by
  cases okClosed with
  | true => rfl
  | false => cases ctxDone <;> simp [expectResult] at h

/-- A concrete frame-scoped "load" predicate used by witnesses: the
predicate of `expectLifecycleLoaded` evaluated against a target whose
current frame has identifier "F". -/
def isLoadF : Event → Bool :=
  lifecycleIs "load" (Executor.target ⟨some ⟨"F"⟩, 0⟩)

/-- C3: `wait()` returns no error only if the predicate matched some
delivered event — if the run of the barrier over a sequence of bus
operations did not set the completion flag through a matching delivery,
`expect` cannot return `some none` — and when the governing context
terminates before any match, `expect` returns exactly the context's
termination error `ctxErr`. -/
theorem wait_success_requires_match (is : Event → Bool) (ops : List BOp)
    (ctxDone : Bool) (ctxErr : Err) (pickOk : Bool) :
    (expectResult (runBarrier is ops).okClosed ctxDone ctxErr pickOk = some none →
      ∃ e, BOp.deliver e ∈ ops ∧ is e = true) ∧
    ((runBarrier is ops).okClosed = false → ctxDone = true →
      expectResult (runBarrier is ops).okClosed ctxDone ctxErr pickOk =
        some (some ctxErr)) := by
  constructor
  · intro h
    have hok := expectResult_success_okClosed _ _ _ _ h
    rcases foldl_okClosed_of is ops armed hok with hs | hex
    · exact absurd hs (by simp [armed])
    · exact hex
  · intro hok hdone
    rw [hok, hdone]
    rfl

/-- Witness for C3 at a concrete input: a single delivery of the
matching "load" lifecycle event for frame "F". -/
theorem wait_success_requires_match_witness :
    ∃ e, BOp.deliver e ∈ [BOp.deliver (Event.lifecycle "load" "F")] ∧
      isLoadF e = true :=
  (wait_success_requires_match isLoadF [BOp.deliver (Event.lifecycle "load" "F")]
    false Err.ctxCanceled true).1 rfl

/-- C4: over any sequence of bus deliveries and release calls, the
completion channel is closed at most once and no double-close panic
occurs; the first matching delivery to an unreleased barrier closes the
signal and releases the listener; and `release` is idempotent (a second
release is a no-op). -/
theorem barrier_close_at_most_once (is : Event → Bool) (ops : List BOp)
    (s : BarrierState) (e : Event) :
    (runBarrier is ops).closeCount ≤ 1 ∧
    (runBarrier is ops).panicked = false ∧
    (s.released = false → is e = true →
      (barrierStep is s (BOp.deliver e)).okClosed = true ∧
      (barrierStep is s (BOp.deliver e)).released = true) ∧
    barrierStep is (barrierStep is s BOp.release) BOp.release =
      barrierStep is s BOp.release := by
  obtain ⟨h1, h2, _⟩ := runBarrier_inv is ops
  refine ⟨?_, h2, ?_, ?_⟩
  · rw [h1]; split <;> omega
  · intro hr hi
    constructor <;> simp [barrierStep, hr, hi]
  · simp [barrierStep]

/-- Witness for C4 at a concrete input: delivering the matching event to
a freshly armed barrier closes the signal and releases the listener. -/
theorem barrier_close_at_most_once_witness :
    (barrierStep isLoadF armed (BOp.deliver (Event.lifecycle "load" "F"))).okClosed =
      true ∧
    (barrierStep isLoadF armed (BOp.deliver (Event.lifecycle "load" "F"))).released =
      true :=
  (barrier_close_at_most_once isLoadF [] armed (Event.lifecycle "load" "F")).2.2.1
    rfl rfl

/-- C8: the `select` of `expect` resolves with exactly one outcome when
either the completion channel or the governing context's done channel is
ready (success or the context error, never neither); context termination
is always observable (the call never stays blocked once the context is
done); and the call blocks only while neither channel is ready. -/
theorem wait_resolves_exactly_once (okClosed ctxDone : Bool) (ctxErr : Err)
    (pickOk : Bool) :
    ((okClosed = true ∨ ctxDone = true) →
      (expectResult okClosed ctxDone ctxErr pickOk = some none ∨
        expectResult okClosed ctxDone ctxErr pickOk = some (some ctxErr))) ∧
    (ctxDone = true → expectResult okClosed ctxDone ctxErr pickOk ≠ none) ∧
    (okClosed = false → ctxDone = false →
      expectResult okClosed ctxDone ctxErr pickOk = none) := by
  cases okClosed <;> cases ctxDone <;> cases pickOk <;>
    simp [expectResult]

/-- Witness for C8 at a concrete input: with both channels ready the
call resolves to one of the two outcomes. -/
theorem wait_resolves_exactly_once_witness :
    expectResult true true Err.ctxCanceled true = some none ∨
    expectResult true true Err.ctxCanceled true = some (some Err.ctxCanceled) :=
  (wait_resolves_exactly_once true true Err.ctxCanceled true).1 (Or.inl rfl)

/-- C5: the frame-scoped lifecycle predicate matches an event if and
only if the event is a lifecycle event whose name equals the requested
milestone and whose frame identifier equals the frame identity of the
navigated frame (as read through `navigatedFrameID`); in particular an
event with the correct name but a different frame identifier does not
match. -/
theorem lifecycle_predicate_iff (name : String) (exec : Executor) (e : Event)
    (fid : FrameID) :
    (lifecycleIs name exec e = true ↔
      ∃ f, e = Event.lifecycle name f ∧ f = (navigatedFrameID exec).1) ∧
    (fid ≠ (navigatedFrameID exec).1 →
      lifecycleIs name exec (Event.lifecycle name fid) = false) := by
  constructor
  · cases e with
    | other t => simp [lifecycleIs]
    | lifecycle n f =>
      simp only [lifecycleIs, Bool.and_eq_true, beq_iff_eq]
      constructor
      · rintro ⟨hn, hf⟩
        exact ⟨f, by rw [hn], hf⟩
      · rintro ⟨f2, he, hf⟩
        cases he
        exact ⟨rfl, hf⟩
  · intro h
    simp [lifecycleIs, h]

/-- Witness for C5 at a concrete input: a "load" event for frame "G"
does not match when the navigated frame is "F". -/
theorem lifecycle_predicate_iff_witness :
    lifecycleIs "load" (Executor.target ⟨some ⟨"F"⟩, 0⟩)
      (Event.lifecycle "load" "G") = false :=
  (lifecycle_predicate_iff "load" (Executor.target ⟨some ⟨"F"⟩, 0⟩)
    (Event.other 0) "G").2 (by decide)

/-- Counterexample to C1 as stated: the frame identity is NOT fixed at
arm time. Take a barrier armed while the target's current frame is "A"
(so the arm-time read yields "A") whose target later navigates so that
the current frame is "B" at evaluation time. The predicate the source
builds (`lifecycleIs`, which calls `navigatedFrameID` inside its body)
accepts the "load" event for frame "B", while the arm-time-fixed
predicate the claim describes (`lifecycleIsFixed` applied to the value
read at arm time) rejects it — so an evaluation compares against a value
read later than arm time, contradicting the claim. -/
theorem lifecycle_predicate_not_fixed_at_arm :
    lifecycleIs "load" (Executor.target ⟨some ⟨"B"⟩, 0⟩)
      (Event.lifecycle "load" "B") = true ∧
    lifecycleIsFixed "load"
      ((navigatedFrameID (Executor.target ⟨some ⟨"A"⟩, 0⟩)).1)
      (Event.lifecycle "load" "B") = false := by
  exact ⟨rfl, by decide⟩

/-- C1 (amended): every evaluation of the match predicate compares the
event's frame identifier against the frame identity read through
`navigatedFrameID` at that evaluation — the predicate behaves as the
fixed-frame predicate instantiated with the value current at evaluation
time, not with a value captured at arm time. -/
theorem lifecycle_predicate_uses_eval_time_read (name : String) (exec : Executor)
    (e : Event) :
    lifecycleIs name exec e =
      lifecycleIsFixed name ((navigatedFrameID exec).1) e := by
  cases e <;> rfl

/-- C10 (bug exhibit): `navigatedFrameID`, called on a target whose
current frame is nil with no read lock held, returns with the reader
count of `curMu` at 1 — the `RLock` taken on entry is never matched by
an `RUnlock` on the nil-frame return path, so the read lock is leaked
(any later writer's `Lock` would block forever). -/
theorem navigatedFrameID_nil_frame_leaks_read_lock :
    navigatedFrameID (Executor.target ⟨none, 0⟩) =
      ("", Executor.target ⟨none, 1⟩) := rfl

/-- C9: `NavigationEntries` panics at construction when either output
pointer is nil (whatever the other argument and the protocol outcome
would have been), and on a successful protocol call writes the fetched
current index and entry list through the two pointers and returns no
error. -/
theorem navigationEntries_nil_panics_and_writes (cur : Option Int)
    (ent : Option (List NavEntry)) (hist : Except Err (Int × List NavEntry))
    (c : Int) (es : List NavEntry) (i : Int) (l : List NavEntry) :
    NavigationEntriesModel none ent hist =
      GoResult.panicked "currentIndex and entries cannot be nil" ∧
    NavigationEntriesModel cur none hist =
      GoResult.panicked "currentIndex and entries cannot be nil" ∧
    NavigationEntriesModel (some c) (some es) (Except.ok (i, l)) =
      GoResult.ok ((i, l), none) := by
  refine ⟨?_, ?_, rfl⟩
  · cases ent <;> rfl
  · cases cur <;> rfl

/-- A concrete world for witnesses of the guard claims: the freshly
fetched history has one entry with the current index 0. -/
def wGuard : World :=
  { navigateAck := none, historyAck := Except.ok (0, [⟨7⟩]), entryAck := none,
    reloadAck := none, okClosed := true, ctxDone := false,
    ctxErr := Err.ctxCanceled, pickOk := true }

/-- A concrete world for witnesses of the acknowledgment-error claims:
every triggering command fails its acknowledgment with protocol error 3,
while the history fetch succeeds with three entries and current index 1. -/
def wAck : World :=
  { navigateAck := some (Err.protocol 3),
    historyAck := Except.ok (1, [⟨5⟩, ⟨6⟩, ⟨7⟩]),
    entryAck := some (Err.protocol 3), reloadAck := some (Err.protocol 3),
    okClosed := false, ctxDone := false, ctxErr := Err.ctxCanceled, pickOk := true }

/-- C2: in every run of each orchestrated navigation operation, every
barrier-triggering protocol command in the trace is preceded by the
listener registration; the arm call's own trace is exactly the
registration step (so `arm` registers synchronously before returning);
and an event delivered to the armed barrier after arm returns is
observed (a matching delivery closes the completion signal). -/
theorem arm_registers_before_trigger (w : World) (url : String) (eid : Int)
    (is : Event → Bool) (e : Event) :
    regBeforeTrigger false (NavigateRun url w).2 = true ∧
    regBeforeTrigger false (NavigateToHistoryEntryRun eid w).2 = true ∧
    regBeforeTrigger false (NavigateBackRun w).2 = true ∧
    regBeforeTrigger false (NavigateForwardRun w).2 = true ∧
    regBeforeTrigger false (ReloadRun w).2 = true ∧
    armTrace = [Step.registerListener] ∧
    (is e = true → (barrierStep is armed (BOp.deliver e)).okClosed = true) := by
  refine ⟨?_, ?_, ?_, ?_, ?_, rfl, ?_⟩
  · cases h1 : w.navigateAck with
    | some a => simp only [NavigateRun, h1]; rfl
    | none =>
      cases h2 : waitIn w with
      | none => simp only [NavigateRun, h1, h2]; rfl
      | some r => simp only [NavigateRun, h1, h2]; rfl
  · cases h1 : w.entryAck with
    | some a => simp only [NavigateToHistoryEntryRun, h1]; rfl
    | none =>
      cases h2 : waitIn w with
      | none => simp only [NavigateToHistoryEntryRun, h1, h2]; rfl
      | some r => simp only [NavigateToHistoryEntryRun, h1, h2]; rfl
  · cases h1 : w.historyAck with
    | error a => simp only [NavigateBackRun, h1]; rfl
    | ok p =>
      obtain ⟨cur, entries⟩ := p
      simp only [NavigateBackRun, h1]
      split
      · rfl
      · cases h2 : w.entryAck with
        | some a => simp only [h2]; rfl
        | none =>
          cases h3 : waitIn w with
          | none => simp only [h2, h3]; rfl
          | some r => simp only [h2, h3]; rfl
  · cases h1 : w.historyAck with
    | error a => simp only [NavigateForwardRun, h1]; rfl
    | ok p =>
      obtain ⟨cur, entries⟩ := p
      simp only [NavigateForwardRun, h1]
      split
      · rfl
      · cases h2 : w.entryAck with
        | some a => simp only [h2]; rfl
        | none =>
          cases h3 : waitIn w with
          | none => simp only [h2, h3]; rfl
          | some r => simp only [h2, h3]; rfl
  · cases h1 : w.reloadAck with
    | some a => simp only [ReloadRun, h1]; rfl
    | none =>
      cases h2 : waitIn w with
      | none => simp only [ReloadRun, h1, h2]; rfl
      | some r => simp only [ReloadRun, h1, h2]; rfl
  · intro hi
    simp [barrierStep, armed, hi]

/-- Witness for C2 at a concrete input: the matching "load" event
delivered right after arm returns closes the completion signal. -/
theorem arm_registers_before_trigger_witness :
    (barrierStep isLoadF armed
      (BOp.deliver (Event.lifecycle "load" "F"))).okClosed = true :=
  (arm_registers_before_trigger wGuard "u" 9 isLoadF
    (Event.lifecycle "load" "F")).2.2.2.2.2.2 rfl

/-- C6: when the freshly fetched history state fails the index guard,
`NavigateBack` (guard: current index strictly positive and within range)
and `NavigateForward` (guard: current index strictly below the last
valid index) return the invalid-navigation error with a trace containing
only the history fetch — no barrier registration and no navigation
command. -/
theorem history_guard_blocks_invalid (w : World) (cur : Int)
    (entries : List NavEntry) :
    (w.historyAck = Except.ok (cur, entries) →
      ¬(0 < cur ∧ cur ≤ (entries.length : Int) - 1) →
      NavigateBackRun w =
        (some (some Err.invalidEntry), [Step.command Cmd.getNavigationHistory])) ∧
    (w.historyAck = Except.ok (cur, entries) →
      ¬(cur < (entries.length : Int) - 1) →
      NavigateForwardRun w =
        (some (some Err.invalidEntry), [Step.command Cmd.getNavigationHistory])) := by
  constructor
  · intro h1 h2
    simp only [NavigateBackRun, h1]
    rw [if_pos (by omega)]
  · intro h1 h2
    simp only [NavigateForwardRun, h1]
    rw [if_pos (by omega)]

/-- Witness for C6 at a concrete input: one history entry with current
index 0, so back is at the first entry and forward is at the last. -/
theorem history_guard_blocks_invalid_witness :
    NavigateBackRun wGuard =
      (some (some Err.invalidEntry), [Step.command Cmd.getNavigationHistory]) ∧
    NavigateForwardRun wGuard =
      (some (some Err.invalidEntry), [Step.command Cmd.getNavigationHistory]) :=
  ⟨(history_guard_blocks_invalid wGuard 0 [⟨7⟩]).1 rfl (by decide),
   (history_guard_blocks_invalid wGuard 0 [⟨7⟩]).2 rfl (by decide)⟩

/-- C7: when the triggering command's acknowledgment fails, each
orchestrated operation returns that error verbatim; its trace contains
no wait step (the error is returned without calling `expect`) and ends
with the deferred `release`. -/
theorem command_error_returned_without_wait (w : World) (url : String) (eid : Int)
    (e : Err) (cur : Int) (entries : List NavEntry) :
    (w.navigateAck = some e →
      NavigateRun url w =
        (some (some e),
          [Step.registerListener, Step.command (Cmd.navigate url), Step.release])) ∧
    (w.entryAck = some e →
      NavigateToHistoryEntryRun eid w =
        (some (some e),
          [Step.registerListener, Step.command (Cmd.navigateToHistoryEntry eid),
            Step.release])) ∧
    (w.reloadAck = some e →
      ReloadRun w =
        (some (some e),
          [Step.registerListener, Step.command Cmd.reload, Step.release])) ∧
    (w.historyAck = Except.ok (cur, entries) → 0 < cur →
      cur ≤ (entries.length : Int) - 1 → w.entryAck = some e →
      NavigateBackRun w =
        (some (some e),
          [Step.command Cmd.getNavigationHistory, Step.registerListener,
            Step.command
              (Cmd.navigateToHistoryEntry ((entries.getD (cur - 1).toNat ⟨0⟩).ID)),
            Step.release])) ∧
    (w.historyAck = Except.ok (cur, entries) → 0 ≤ cur →
      cur < (entries.length : Int) - 1 → w.entryAck = some e →
      NavigateForwardRun w =
        (some (some e),
          [Step.command Cmd.getNavigationHistory, Step.registerListener,
            Step.command
              (Cmd.navigateToHistoryEntry ((entries.getD (cur + 1).toNat ⟨0⟩).ID)),
            Step.release])) := by
  refine ⟨?_, ?_, ?_, ?_, ?_⟩
  · intro h
    simp only [NavigateRun, h]
    rfl
  · intro h
    simp only [NavigateToHistoryEntryRun, h]
    rfl
  · intro h
    simp only [ReloadRun, h]
    rfl
  · intro h1 h2 h3 h4
    simp only [NavigateBackRun, h1]
    rw [if_neg (by omega)]
    simp only [h4]
    rfl
  · intro h1 h2 h3 h4
    simp only [NavigateForwardRun, h1]
    rw [if_neg (by omega)]
    simp only [h4]
    rfl

/-- Witness for C7 at a concrete input: in `wAck` every triggering
command fails with protocol error 3 and all five operations return it
without a wait step, releasing the listener. -/
theorem command_error_returned_without_wait_witness :
    NavigateRun "u" wAck =
      (some (some (Err.protocol 3)),
        [Step.registerListener, Step.command (Cmd.navigate "u"), Step.release]) ∧
    NavigateToHistoryEntryRun 9 wAck =
      (some (some (Err.protocol 3)),
        [Step.registerListener, Step.command (Cmd.navigateToHistoryEntry 9),
          Step.release]) ∧
    ReloadRun wAck =
      (some (some (Err.protocol 3)),
        [Step.registerListener, Step.command Cmd.reload, Step.release]) ∧
    NavigateBackRun wAck =
      (some (some (Err.protocol 3)),
        [Step.command Cmd.getNavigationHistory, Step.registerListener,
          Step.command (Cmd.navigateToHistoryEntry 5), Step.release]) ∧
    NavigateForwardRun wAck =
      (some (some (Err.protocol 3)),
        [Step.command Cmd.getNavigationHistory, Step.registerListener,
          Step.command (Cmd.navigateToHistoryEntry 7), Step.release]) :=
  ⟨(command_error_returned_without_wait wAck "u" 9 (Err.protocol 3) 1
      [⟨5⟩, ⟨6⟩, ⟨7⟩]).1 rfl,
   (command_error_returned_without_wait wAck "u" 9 (Err.protocol 3) 1
      [⟨5⟩, ⟨6⟩, ⟨7⟩]).2.1 rfl,
   (command_error_returned_without_wait wAck "u" 9 (Err.protocol 3) 1
      [⟨5⟩, ⟨6⟩, ⟨7⟩]).2.2.1 rfl,
   (command_error_returned_without_wait wAck "u" 9 (Err.protocol 3) 1
      [⟨5⟩, ⟨6⟩, ⟨7⟩]).2.2.2.1 rfl (by decide) (by decide) rfl,
   (command_error_returned_without_wait wAck "u" 9 (Err.protocol 3) 1
      [⟨5⟩, ⟨6⟩, ⟨7⟩]).2.2.2.2 rfl (by decide) (by decide) rfl⟩

end Chromedp
